import Mathlib

/-!
Verification of the "MultiplePlaylists" plugin
(src/plugins/multipleplaylists/src/index.ts) against its natural-language
specification.

The plugin is UI glue: a context-menu button, a playlist-selection modal,
a bulk add-to-playlists loop, and a toast notification helper.  The shallow
embedding below models each of those functions as a pure Lean function over
explicit inputs:

* host calls that may throw are modelled by `HostCall`;
* the Redux snapshot of playlists is a list of optional playlist records
  (JS `Object.values` may surface null-ish entries, which the source guards
  against with `!playlist`);
* DOM effects (dispatched Redux actions, toast notifications, the modal)
  are returned as explicit data instead of being performed;
* `setTimeout` scheduling in `showNotification` is modelled by an explicit
  timer queue with absolute fire times, executed in time order.
-/

/-- Result of invoking a host-provided (possibly async) call: either it throws
or it returns a value.  `none` at the call-site models a missing accessor
(a falsy method reference in the JS source). -/
inductive HostCall (α : Type) where
  | throws
  | returns (val : α)
deriving DecidableEq

/-- Severity tag accepted by `showNotification`. -/
inductive NotifType where
  | success
  | warning
  | error
deriving DecidableEq

/-! ## Playlist Source Adapter (Redux fallback)

`populatePlaylistListFromRedux` reads `state.content.playlists` (a map whose
values we model as `List (Option PlaylistRec)`) and `state.user.meta.id`
(modelled as `Option Nat`; the JS truthiness test `!currentUserId` also
rejects the id `0`). -/

/-- A playlist summary as read from the Redux store: `type`, `creator.id`
(absent when `creator` or `creator.id` is missing), `uuid`, `title`,
`numberOfTracks`. -/
structure PlaylistRec where
  type : String
  creatorId : Option Nat
  uuid : String
  title : Option String
  numberOfTracks : Option Nat
deriving DecidableEq

/-- JS truthiness of the current user id (`!currentUserId` is true for a
missing id and for the number `0`). -/
def userIdTruthy : Option Nat → Bool
  | some (_ + 1) => true
  | _ => false

/-- The ownership predicate of the fallback path (the callback passed to
`Object.values(playlists).filter` at lines 208-231): reject null-ish entries,
reject entries whose `type` is not `'USER'`, fail closed when the current
user id cannot be determined, and otherwise require
`playlist.creator?.id === currentUserId`. -/
def playlistFilter (currentUserId : Option Nat) (p : Option PlaylistRec) : Bool :=
  match p with
  | none => false
  | some playlist =>
    if playlist.type = "USER" then
      if userIdTruthy currentUserId then
        decide (playlist.creatorId = currentUserId)
      else
        false
    else
      false

/-- The three rendering outcomes of `populatePlaylistListFromRedux`:
the empty-store message (`'No playlists found. Create some playlists
first!'`), the security error message (`'Unable to load your playlists.
Please try again.'`), and the checkbox list built from the filtered array. -/
inductive PlaylistRenderOutcome where
  | noPlaylistsMsg
  | securityErrorMsg
  | playlistList (items : List (Option PlaylistRec))
deriving DecidableEq

/-- `populatePlaylistListFromRedux` (lines 188-265): early-return the empty
message when the store holds no playlists; otherwise filter by ownership;
when the store was non-empty, the filter kept nothing, and the user id is
known, render the security error message; otherwise render the filtered
list. -/
def populatePlaylistListFromRedux (playlists : List (Option PlaylistRec))
    (currentUserId : Option Nat) : PlaylistRenderOutcome :=
  if playlists.length = 0 then
    .noPlaylistsMsg
  else if 0 < playlists.length ∧
      (playlists.filter (playlistFilter currentUserId)).length = 0 ∧
      userIdTruthy currentUserId = true then
    .securityErrorMsg
  else
    .playlistList (playlists.filter (playlistFilter currentUserId))

/-- The playlists actually surfaced (rendered as checkboxes) by an outcome:
both message outcomes surface none. -/
def surfacedPlaylists : PlaylistRenderOutcome → List (Option PlaylistRec)
  | .playlistList items => items
  | _ => []

/-! ## Songs and metadata resolution (`showPlaylistSelector`, lines 17-126)

A `Song` models the `MediaItem` reference: its id plus the lazily-resolved
`title`, `artist` and `artists` accessors.  An accessor is `none` when the
method reference itself is falsy, `some .throws` when awaiting it rejects,
and `some (.returns v)` when it resolves to `v`. -/

/-- An artist record; `name` is `none` when the field is missing and JS
treats the empty string as falsy too. -/
structure ArtistRec where
  name : Option String
deriving DecidableEq

/-- A `MediaItem` reference as used by the plugin. -/
structure Song where
  id : String
  title : Option (HostCall String)
  artist : Option (HostCall (Option ArtistRec))
  artists : Option (HostCall (List (Option ArtistRec)))
deriving DecidableEq

/-- Line 49: `song.title ? await song.title() : 'Unknown Song'`.  A missing
accessor degrades to the placeholder, but the call itself is NOT inside any
try/catch, so a rejection propagates. -/
def resolveTitle (song : Song) : HostCall String :=
  match song.title with
  | none => .returns "Unknown Song"
  | some c => c

/-- Lines 50-72: artist resolution, fully wrapped in try/catch, defaulting to
`'Unknown Artist'` on a missing accessor, a rejection, a null-ish result, an
empty collection, or a falsy name. -/
def resolveArtist (song : Song) : String :=
  match song.artist with
  | some .throws => "Unknown Artist"
  | some (.returns none) => "Unknown Artist"
  | some (.returns (some a)) =>
    match a.name with
    | some nm => if nm = "" then "Unknown Artist" else nm
    | none => "Unknown Artist"
  | none =>
    match song.artists with
    | none => "Unknown Artist"
    | some .throws => "Unknown Artist"
    | some (.returns []) => "Unknown Artist"
    | some (.returns (none :: _)) => "Unknown Artist"
    | some (.returns (some a :: _)) =>
      match a.name with
      | some nm => if nm = "" then "Unknown Artist" else nm
      | none => "Unknown Artist"

/-- The metadata-resolution phase of `showPlaylistSelector` (lines 48-103):
the title is resolved first and outside any try/catch, then the artist; only
when both produced strings is the modal populated and appended to the
document.  `.returns (t, a)` means the modal opened showing header `(t, a)`;
`.throws` means the function rejected before `document.body.appendChild`. -/
def showPlaylistSelector (song : Song) : HostCall (String × String) :=
  match resolveTitle song with
  | .throws => .throws
  | .returns t => .returns (t, resolveArtist song)

/-- Whether the selection modal is actually appended to the document for
this song. -/
def modalOpens (song : Song) : Bool :=
  match showPlaylistSelector song with
  | .throws => false
  | .returns _ => true

/-! ## Bulk-Add Operation (`addToSelectedPlaylists`, lines 268-317)

The dispatch
`redux.actions["content/ADD_MEDIA_ITEMS_TO_PLAYLIST"]({...})` is modelled by
an `AddCommand` record; whether the i-th dispatch throws is an oracle
`fails : Nat → Bool` supplied by the host.  The function returns the
commands attempted (in order), the final tally, and the notifications
shown. -/

/-- The payload of one `content/ADD_MEDIA_ITEMS_TO_PLAYLIST` dispatch
(lines 287-293). -/
structure AddCommand where
  playlistUUID : String
  mediaItemIdsToAdd : List String
  addToIndex : Int
  onDupes : String
  showNotification : Bool
deriving DecidableEq

/-- The exact payload built at lines 287-293 for one selected playlist. -/
def mkAddCommand (playlistId songId : String) : AddCommand :=
  { playlistUUID := playlistId
    mediaItemIdsToAdd := [songId]
    addToIndex := -1
    onDupes := "SKIP"
    showNotification := false }

/-- Observable outcome of one `addToSelectedPlaylists` invocation. -/
structure BulkAddResult where
  dispatches : List AddCommand
  successCount : Nat
  errorCount : Nat
  notifications : List (String × NotifType)
deriving DecidableEq

/-- The `for (const playlistId of selectedPlaylistIds)` loop (lines 284-299):
every id is dispatched in order; the i-th dispatch throwing (per the oracle)
is caught individually and counted, and never stops the loop.  Returns
(attempted commands, successCount, errorCount). -/
def bulkAddLoop (songId : String) (ids : List String) (fails : Nat → Bool)
    (idx : Nat) : List AddCommand × Nat × Nat :=
  match ids with
  | [] => ([], 0, 0)
  | playlistId :: rest =>
    let cmd := mkAddCommand playlistId songId
    let r := bulkAddLoop songId rest fails (idx + 1)
    if fails idx then
      (cmd :: r.1, r.2.1, r.2.2 + 1)
    else
      (cmd :: r.1, r.2.1 + 1, r.2.2)

/-- The result message built at lines 303-305. -/
def resultMessage (songTitle : String) (successCount errorCount : Nat) :
    String :=
  if 0 < successCount then
    "\"" ++ songTitle ++ "\" added to " ++ toString successCount ++
      " playlist" ++ (if 1 < successCount then "s" else "") ++ " (" ++
      toString errorCount ++ " failed)"
  else
    "Failed to add \"" ++ songTitle ++ "\" to playlists"

/-- `addToSelectedPlaylists` (lines 268-317): reject an empty selection with
one notification and no dispatch; resolve the song title (a rejection there
is caught by the outer try/catch at line 313, before any dispatch); run the
loop; show a single error notification iff `errorCount > 0`, and nothing on
full success. -/
def addToSelectedPlaylists (song : Song) (selectedPlaylistIds : List String)
    (fails : Nat → Bool) : BulkAddResult :=
  if selectedPlaylistIds.length = 0 then
    { dispatches := []
      successCount := 0
      errorCount := 0
      notifications := [("Please select at least one playlist", NotifType.error)] }
  else
    match resolveTitle song with
    | .throws =>
      { dispatches := []
        successCount := 0
        errorCount := 0
        notifications := [("Error adding song to playlists", NotifType.error)] }
    | .returns songTitle =>
      let r := bulkAddLoop song.id selectedPlaylistIds fails 0
      { dispatches := r.1
        successCount := r.2.1
        errorCount := r.2.2
        notifications :=
          if 0 < r.2.2 then
            [(resultMessage songTitle r.2.1 r.2.2, NotifType.error)]
          else
            [] }

/-! ## Notification Presenter (`showNotification`, lines 320-357)

The toast element and its `setTimeout` chain are modelled explicitly: the
state carries the element's fields plus a queue of pending timer tasks with
absolute fire times (in ms from the element's creation).  The event loop
always runs the earliest pending task first. -/

/-- The three timer callbacks of `showNotification`: the slide-in at +50ms,
the slide-out at +3000ms (which schedules the removal 200ms later), and the
removal itself. -/
inductive TimerTask where
  | animateIn
  | startDismiss
  | removeElem
deriving DecidableEq

/-- The toast element together with its pending timers.  `removedAt` records
the absolute time (ms after creation) at which the element was removed from
the document. -/
structure NotifState where
  message : String
  ntype : NotifType
  transform : String
  inDocument : Bool
  removedAt : Option Nat
  pending : List (Nat × TimerTask)
deriving DecidableEq

/-- `showNotification(message, type)` (lines 320-346): create the element
off-screen (`translateX(300px)`), append it to the document, and schedule
the slide-in at +50ms and the dismissal at +3000ms. -/
def showNotification (message : String) (ntype : NotifType) : NotifState :=
  { message := message
    ntype := ntype
    transform := "translateX(300px)"
    inDocument := true
    removedAt := none
    pending := [(50, TimerTask.animateIn), (3000, TimerTask.startDismiss)] }

/-- Run one fired timer callback at absolute time `t` (lines 344-356):
slide in; or slide out and schedule the removal at `t + 200`; or remove the
element from the document if it is still attached. -/
def runTimerTask (s : NotifState) (t : Nat) : TimerTask → NotifState
  | .animateIn => { s with transform := "translateX(0)" }
  | .startDismiss =>
    { s with transform := "translateX(300px)"
             pending := s.pending ++ [(t + 200, TimerTask.removeElem)] }
  | .removeElem =>
    if s.inDocument then
      { s with inDocument := false, removedAt := some t }
    else
      s

/-- Remove the earliest pending timer (first occurrence of the minimal fire
time) from a queue. -/
def popEarliest : List (Nat × TimerTask) →
    Option ((Nat × TimerTask) × List (Nat × TimerTask))
  | [] => none
  | x :: xs =>
    match popEarliest xs with
    | none => some (x, [])
    | some (y, rest) => if x.1 ≤ y.1 then some (x, xs) else some (y, x :: rest)

/-- The event loop: repeatedly fire the earliest pending timer, up to `fuel`
times (the queue never holds more than two entries here, and only
`startDismiss` enqueues a new one, so any `fuel ≥ 3` drains it). -/
def runTimers : Nat → NotifState → NotifState
  | 0, s => s
  | fuel + 1, s =>
    match popEarliest s.pending with
    | none => s
    | some ((t, task), rest) =>
      runTimers fuel (runTimerTask { s with pending := rest } t task)

/-! ## Context-Menu Integration (`setupContextMenuIntegration`, lines 366-431)

The two closure variables `contextMenuSongId` / `contextMenuContentType`
form the integration's state; the `onMediaItem` hook and the button's
`onClick` handler are modelled as transition functions.  The `onClick`
handler's observable actions (closing the menu, the `MediaItem.fromId`
resolution call, opening the selector, toasts) are returned as a list of
effects in program order. -/

/-- The captured identity: `contextMenuSongId` (nullable) and
`contextMenuContentType` (initialised to `"track"`). -/
structure CtxState where
  contextMenuSongId : Option String
  contextMenuContentType : String
deriving DecidableEq

/-- The state right after `setupContextMenuIntegration` runs (lines
371-372). -/
def ctxInit : CtxState := { contextMenuSongId := none, contextMenuContentType := "track" }

/-- The `ContextMenu.onMediaItem` hook (lines 400-430).  Extraction of the
first item from the media collection is a host call returning `none` when
the collection yields no item (the closure variables are then left
unchanged), or the first item's id and content type; if extraction throws,
the catch at line 423 resets `contextMenuSongId` to null (the content type
is left as-is). -/
def contextMenuOnMediaItem (s : CtxState)
    (extraction : HostCall (Option (String × String))) : CtxState :=
  match extraction with
  | .throws => { s with contextMenuSongId := none }
  | .returns none => s
  | .returns (some (songId, contentType)) =>
    { contextMenuSongId := some songId, contextMenuContentType := contentType }

/-- Observable actions of the button's `onClick` handler, in program
order. -/
inductive ClickEffect where
  | closeMenu
  | resolutionCall (songId contentType : String)
  | openSelector (songId contentType : String)
  | notify (message : String) (severity : NotifType)
deriving DecidableEq

/-- The button's `onClick` handler (lines 374-397).  `resolve id ct` models
`MediaItem.fromId(id, ct)`: `.returns true` when it yields a media item
(then `showPlaylistSelector` is invoked), `.returns false` when it yields a
null-ish result, `.throws` when it rejects.  The handler closes the menu
first, then (after the 100ms delay) either uses the captured identity or
shows the defensive "No song selected" toast.  It returns the state the
closure variables are left in, plus the effects. -/
def contextMenuButtonOnClick (s : CtxState)
    (resolve : String → String → HostCall Bool) : CtxState × List ClickEffect :=
  match s.contextMenuSongId with
  | some songId =>
    let ct := s.contextMenuContentType
    let effects :=
      match resolve songId ct with
      | .returns true =>
        [ClickEffect.closeMenu, ClickEffect.resolutionCall songId ct,
          ClickEffect.openSelector songId ct]
      | .returns false =>
        [ClickEffect.closeMenu, ClickEffect.resolutionCall songId ct,
          ClickEffect.notify "Could not load song information" NotifType.error]
      | .throws =>
        [ClickEffect.closeMenu, ClickEffect.resolutionCall songId ct,
          ClickEffect.notify "Error loading song information" NotifType.error]
    (s, effects)
  | none =>
    (s, [ClickEffect.closeMenu, ClickEffect.notify "No song selected" NotifType.error])

/-! ## Helper lemmas about the bulk-add loop -/

/-- Every selected id is dispatched, in selection order, with the payload of
lines 287-293 — independently of which dispatches throw. -/
theorem bulkAddLoop_fst (songId : String) (fails : Nat → Bool)
    (ids : List String) (idx : Nat) :
    (bulkAddLoop songId ids fails idx).1 =
      ids.map (fun playlistId => mkAddCommand playlistId songId) := by
  induction ids generalizing idx with
  | nil => rfl
  | cons playlistId rest ih =>
    unfold bulkAddLoop
    by_cases h : fails idx <;> simp [h, ih]

/-- When no dispatch throws, the error counter stays at zero. -/
theorem bulkAddLoop_errZero (songId : String) (fails : Nat → Bool)
    (ids : List String) (idx : Nat) (h : ∀ i, fails i = false) :
    (bulkAddLoop songId ids fails idx).2.2 = 0 := by
  induction ids generalizing idx with
  | nil => rfl
  | cons playlistId rest ih =>
    unfold bulkAddLoop
    simp [h, ih]

/-- Claim C2: invoking `addToSelectedPlaylists` with an empty selection set
issues no dispatch and produces exactly the one "Please select at least one
playlist" error notice. -/
theorem addToSelectedPlaylists_empty_selection (song : Song) (fails : Nat → Bool) :
    (addToSelectedPlaylists song [] fails).dispatches = [] ∧
    (addToSelectedPlaylists song [] fails).notifications =
      [("Please select at least one playlist", NotifType.error)] := by
  constructor <;> rfl

/-- Claim C9: for every message and severity, running the timer queue of
`showNotification` removes the toast element from the document at exactly
3000 + 200 ms after creation (the dismiss delay plus the exit transition),
so removal always happens within that bound regardless of message content. -/
theorem showNotification_removed_within_delay (message : String) (ntype : NotifType) :
    (runTimers 4 (showNotification message ntype)).inDocument = false ∧
    (runTimers 4 (showNotification message ntype)).removedAt = some (3000 + 200) := by
  constructor <;> rfl

/-- Counterexample to claim C5: after the menu opens on song "s1" and the
button is clicked (dispatching the selector), the captured identity is still
"s1" — and a second click without any new menu-open event again finds the
identity and issues a resolution call, instead of finding nothing. -/
theorem contextMenuClick_identity_not_cleared_cex :
    ((contextMenuButtonOnClick
        (contextMenuOnMediaItem ctxInit (HostCall.returns (some ("s1", "track"))))
        (fun _ _ => HostCall.returns true)).1.contextMenuSongId = some "s1") ∧
    ((contextMenuButtonOnClick
        (contextMenuButtonOnClick
          (contextMenuOnMediaItem ctxInit (HostCall.returns (some ("s1", "track"))))
          (fun _ _ => HostCall.returns true)).1
        (fun _ _ => HostCall.returns true)).2 =
      [ClickEffect.closeMenu, ClickEffect.resolutionCall "s1" "track",
        ClickEffect.openSelector "s1" "track"]) := by
  constructor <;> rfl

/-- Claim C5 (amended): the click handler never clears the captured song
identity — it leaves the closure state unchanged, so a second click without
a new menu-open event reuses the previously captured identity. -/
theorem contextMenuClick_preserves_captured_identity (s : CtxState)
    (resolve : String → String → HostCall Bool) :
    (contextMenuButtonOnClick s resolve).1 = s := by
  cases s with
  | mk songId ct =>
    cases songId with
    | none => rfl
    | some v =>
      unfold contextMenuButtonOnClick
      cases resolve v ct with
      | throws => rfl
      | returns b => cases b <;> rfl

/-- Claim C7: clicking the custom button with no captured identity closes
the menu, shows exactly one "No song selected" error notification, and
issues no `MediaItem.fromId` resolution call. -/
theorem contextMenuClick_no_capture (s : CtxState)
    (resolve : String → String → HostCall Bool)
    (h : s.contextMenuSongId = none) :
    (contextMenuButtonOnClick s resolve).2 =
      [ClickEffect.closeMenu, ClickEffect.notify "No song selected" NotifType.error] ∧
    ∀ songId ct,
      ClickEffect.resolutionCall songId ct ∉ (contextMenuButtonOnClick s resolve).2 := by
  cases s with
  | mk sid ct =>
    cases sid with
    | some v => simp at h
    | none =>
      constructor
      · rfl
      · intro songId c hmem
        simp [contextMenuButtonOnClick] at hmem

/-- Witness for claim C7 at the initial state. -/
theorem contextMenuClick_no_capture_witness :
    (contextMenuButtonOnClick ctxInit (fun _ _ => HostCall.returns true)).2 =
      [ClickEffect.closeMenu, ClickEffect.notify "No song selected" NotifType.error] ∧
    ClickEffect.resolutionCall "s1" "track" ∉
      (contextMenuButtonOnClick ctxInit (fun _ _ => HostCall.returns true)).2 := by
  have h := contextMenuClick_no_capture ctxInit (fun _ _ => HostCall.returns true) rfl
  exact ⟨h.1, h.2 "s1" "track"⟩

/-- Claim C3: for a selection [A, B, C] where the second dispatch throws and
the others succeed, the final tally is 2 succeeded / 1 failed, exactly one
error notification carrying both counts is shown, and the commands were
attempted in the order A, B, C (the failure does not stop the batch). -/
theorem addToSelectedPlaylists_partial_failure (song : Song)
    (songTitle A B C : String)
    (h : resolveTitle song = HostCall.returns songTitle) :
    (addToSelectedPlaylists song [A, B, C] (fun i => i == 1)).successCount = 2 ∧
    (addToSelectedPlaylists song [A, B, C] (fun i => i == 1)).errorCount = 1 ∧
    (addToSelectedPlaylists song [A, B, C] (fun i => i == 1)).notifications =
      [(resultMessage songTitle 2 1, NotifType.error)] ∧
    (addToSelectedPlaylists song [A, B, C] (fun i => i == 1)).dispatches.map
        AddCommand.playlistUUID = [A, B, C] := by
  unfold addToSelectedPlaylists
  rw [h]
  simp [bulkAddLoop, mkAddCommand]

/-- Witness for claim C3 at a concrete song and selection. -/
theorem addToSelectedPlaylists_partial_failure_witness :
    (addToSelectedPlaylists
        { id := "sid", title := some (HostCall.returns "T"), artist := none,
          artists := none }
        ["p1", "p2", "p3"] (fun i => i == 1)).successCount = 2 ∧
    (addToSelectedPlaylists
        { id := "sid", title := some (HostCall.returns "T"), artist := none,
          artists := none }
        ["p1", "p2", "p3"] (fun i => i == 1)).errorCount = 1 ∧
    (addToSelectedPlaylists
        { id := "sid", title := some (HostCall.returns "T"), artist := none,
          artists := none }
        ["p1", "p2", "p3"] (fun i => i == 1)).notifications =
      [(resultMessage "T" 2 1, NotifType.error)] ∧
    (addToSelectedPlaylists
        { id := "sid", title := some (HostCall.returns "T"), artist := none,
          artists := none }
        ["p1", "p2", "p3"] (fun i => i == 1)).dispatches.map
        AddCommand.playlistUUID = ["p1", "p2", "p3"] :=
  addToSelectedPlaylists_partial_failure _ "T" "p1" "p2" "p3" rfl

/-- Claim C4: when the selection is non-empty, the title resolves, and every
dispatch succeeds, no notification is shown — success is silent. -/
theorem addToSelectedPlaylists_silent_success (song : Song)
    (selectedPlaylistIds : List String) (fails : Nat → Bool) (songTitle : String)
    (ht : resolveTitle song = HostCall.returns songTitle)
    (hne : selectedPlaylistIds ≠ [])
    (hok : ∀ i, fails i = false) :
    (addToSelectedPlaylists song selectedPlaylistIds fails).notifications = [] := by
  unfold addToSelectedPlaylists
  have hlen : ¬ selectedPlaylistIds.length = 0 := by
    simpa [List.length_eq_zero] using hne
  rw [if_neg hlen, ht]
  simp [bulkAddLoop_errZero song.id fails selectedPlaylistIds 0 hok]

/-- Witness for claim C4 at a concrete song and selection. -/
theorem addToSelectedPlaylists_silent_success_witness :
    (addToSelectedPlaylists
        { id := "sid", title := some (HostCall.returns "T"), artist := none,
          artists := none }
        ["p1"] (fun _ => false)).notifications = [] :=
  addToSelectedPlaylists_silent_success _ _ _ "T" rfl (by decide) (fun _ => rfl)

/-- Claim C8: whenever the title resolves, the dispatched commands are
exactly one per selected identifier, in order, each carrying that playlist
id, the single song id, append-to-end placement (`addToIndex = -1`),
skip-if-duplicate semantics (`onDupes = "SKIP"`), and suppression of the
host's own notification. -/
theorem addToSelectedPlaylists_command_shape (song : Song)
    (selectedPlaylistIds : List String) (fails : Nat → Bool) (songTitle : String)
    (h : resolveTitle song = HostCall.returns songTitle) :
    (addToSelectedPlaylists song selectedPlaylistIds fails).dispatches =
      selectedPlaylistIds.map (fun playlistId =>
        { playlistUUID := playlistId
          mediaItemIdsToAdd := [song.id]
          addToIndex := -1
          onDupes := "SKIP"
          showNotification := false : AddCommand }) := by
  unfold addToSelectedPlaylists
  by_cases hsel : selectedPlaylistIds.length = 0
  · have : selectedPlaylistIds = [] := List.length_eq_zero.mp hsel
    subst this
    simp
  · rw [if_neg hsel, h]
    simp [bulkAddLoop_fst, mkAddCommand]

/-- Witness for claim C8 at a concrete song and selection (with every
dispatch throwing: failing commands are still attempted with the same
payload). -/
theorem addToSelectedPlaylists_command_shape_witness :
    (addToSelectedPlaylists
        { id := "sid", title := some (HostCall.returns "T"), artist := none,
          artists := none }
        ["p1", "p2"] (fun _ => true)).dispatches =
      ["p1", "p2"].map (fun playlistId =>
        { playlistUUID := playlistId
          mediaItemIdsToAdd := ["sid"]
          addToIndex := -1
          onDupes := "SKIP"
          showNotification := false : AddCommand }) :=
  addToSelectedPlaylists_command_shape _ _ _ "T" rfl

/-- Counterexample to claim C6: a song whose `title` accessor throws is
fatal to the workflow — `showPlaylistSelector` rejects and the modal never
opens, instead of degrading to the "Unknown Song" placeholder. -/
theorem showPlaylistSelector_title_throw_cex :
    modalOpens
        { id := "s1", title := some HostCall.throws, artist := none,
          artists := none } = false ∧
    showPlaylistSelector
        { id := "s1", title := some HostCall.throws, artist := none,
          artists := none } = HostCall.throws := by
  constructor <;> rfl

/-- Claim C6 (amended): a missing title accessor degrades to "Unknown Song"
and any artist-resolution failure degrades to "Unknown Artist" with the
modal still opening; but a title accessor that throws propagates the error
and the modal does not open. -/
theorem showPlaylistSelector_metadata_degradation (song : Song) :
    (song.title = none →
      showPlaylistSelector song =
        HostCall.returns ("Unknown Song", resolveArtist song)) ∧
    (∀ t, song.title = some (HostCall.returns t) →
      showPlaylistSelector song = HostCall.returns (t, resolveArtist song)) ∧
    (song.artist = some HostCall.throws → resolveArtist song = "Unknown Artist") ∧
    (song.title = some HostCall.throws →
      showPlaylistSelector song = HostCall.throws) := by
  refine ⟨?_, ?_, ?_, ?_⟩
  · intro h
    simp [showPlaylistSelector, resolveTitle, h]
  · intro t h
    simp [showPlaylistSelector, resolveTitle, h]
  · intro h
    simp [resolveArtist, h]
  · intro h
    simp [showPlaylistSelector, resolveTitle, h]

/-- Witness for the amended claim C6: a song with no title accessor and a
throwing artist accessor still opens the modal, with both placeholders. -/
theorem showPlaylistSelector_metadata_degradation_witness :
    showPlaylistSelector
        { id := "a", title := none, artist := some HostCall.throws,
          artists := none } =
      HostCall.returns ("Unknown Song",
        resolveArtist
          { id := "a", title := none, artist := some HostCall.throws,
            artists := none }) ∧
    resolveArtist
        { id := "a", title := none, artist := some HostCall.throws,
          artists := none } = "Unknown Artist" :=
  ⟨(showPlaylistSelector_metadata_degradation _).1 rfl,
    (showPlaylistSelector_metadata_degradation _).2.2.1 rfl⟩

/-- Claim C1: the Redux-fallback lookup surfaces only playlists whose type
tag is 'USER' and whose creator id equals the current user's id; and when
the current user's id cannot be determined, it surfaces zero playlists
regardless of the snapshot's contents (fail closed). -/
theorem populatePlaylistListFromRedux_ownership (pls : List (Option PlaylistRec))
    (uid : Option Nat) :
    (∀ p ∈ surfacedPlaylists (populatePlaylistListFromRedux pls uid),
      ∃ r u, p = some r ∧ r.type = "USER" ∧ uid = some u ∧ r.creatorId = some u) ∧
    (uid = none → surfacedPlaylists (populatePlaylistListFromRedux pls uid) = []) := by
  constructor
  · intro p hp
    have hf : playlistFilter uid p = true := by
      unfold populatePlaylistListFromRedux at hp
      split at hp
      · simp [surfacedPlaylists] at hp
      · split at hp
        · simp [surfacedPlaylists] at hp
        · simp only [surfacedPlaylists] at hp
          exact (List.mem_filter.mp hp).2
    cases p with
    | none => simp [playlistFilter] at hf
    | some r =>
      simp only [playlistFilter] at hf
      split_ifs at hf with htype htruthy
      · have hcreator : r.creatorId = uid := of_decide_eq_true hf
        cases uid with
        | none => simp [userIdTruthy] at htruthy
        | some n =>
          cases n with
          | zero => simp [userIdTruthy] at htruthy
          | succ m => exact ⟨r, m + 1, rfl, htype, rfl, hcreator⟩
  · intro h
    subst h
    by_cases h0 : pls.length = 0
    · simp [populatePlaylistListFromRedux, h0, surfacedPlaylists]
    · have hfe : pls.filter (playlistFilter none) = [] := by
        apply List.filter_eq_nil_iff.mpr
        intro a _
        cases a <;> simp [playlistFilter, userIdTruthy]
      simp [populatePlaylistListFromRedux, h0, hfe, surfacedPlaylists, userIdTruthy]

/-- Witness for claim C1: a concrete owned playlist is surfaced with the
right owner, and with an unknown user id the same snapshot surfaces
nothing. -/
theorem populatePlaylistListFromRedux_ownership_witness :
    (∃ r u,
      (some (⟨"USER", some 7, "u1", some "Mine", some 3⟩ : PlaylistRec) :
          Option PlaylistRec) = some r ∧
      r.type = "USER" ∧ (some 7 : Option Nat) = some u ∧ r.creatorId = some u) ∧
    surfacedPlaylists
        (populatePlaylistListFromRedux
          [some ⟨"USER", some 7, "u1", some "Mine", some 3⟩] none) = [] :=
  ⟨(populatePlaylistListFromRedux_ownership
      [some ⟨"USER", some 7, "u1", some "Mine", some 3⟩] (some 7)).1
      (some ⟨"USER", some 7, "u1", some "Mine", some 3⟩) (by decide),
    (populatePlaylistListFromRedux_ownership
      [some ⟨"USER", some 7, "u1", some "Mine", some 3⟩] none).2 rfl⟩

/-- Claim C10: with a non-empty snapshot, a known (truthy) user id, and an
ownership filter that keeps nothing, the fallback renders the "Unable to
load your playlists. Please try again." security message — an outcome
distinct from the ordinary "No playlists found" empty-store message. -/
theorem populatePlaylistListFromRedux_security_message
    (pls : List (Option PlaylistRec)) (u : Nat)
    (h1 : pls ≠ []) (h2 : u ≠ 0)
    (h3 : pls.filter (playlistFilter (some u)) = []) :
    populatePlaylistListFromRedux pls (some u) =
      PlaylistRenderOutcome.securityErrorMsg ∧
    populatePlaylistListFromRedux pls (some u) ≠
      PlaylistRenderOutcome.noPlaylistsMsg := by
  have h0 : ¬ pls.length = 0 := by
    simpa [List.length_eq_zero] using h1
  have htr : userIdTruthy (some u) = true := by
    cases u with
    | zero => exact absurd rfl h2
    | succ m => rfl
  have hmain : populatePlaylistListFromRedux pls (some u) =
      PlaylistRenderOutcome.securityErrorMsg := by
    unfold populatePlaylistListFromRedux
    rw [if_neg h0, if_pos ⟨Nat.pos_of_ne_zero h0, by rw [h3]; rfl, htr⟩]
  exact ⟨hmain, by simp [hmain]⟩

/-- Witness for claim C10: one USER playlist owned by user 9 with current
user 7 triggers the security message. -/
theorem populatePlaylistListFromRedux_security_message_witness :
    populatePlaylistListFromRedux
        [some ⟨"USER", some 9, "u1", none, none⟩] (some 7) =
      PlaylistRenderOutcome.securityErrorMsg ∧
    populatePlaylistListFromRedux
        [some ⟨"USER", some 9, "u1", none, none⟩] (some 7) ≠
      PlaylistRenderOutcome.noPlaylistsMsg :=
  populatePlaylistListFromRedux_security_message _ 7 (by decide) (by decide)
    (by decide)
